import Mathlib

/-!
Verification of `redirector` (package `redirector`, file `redirect.go`).

A shallow embedding of the configuration validator `New` and of the request
dispatcher `SiteRedirect.ServeHTTP`, followed by the properties proved about
them.

Modelling conventions
* Go strings are modelled by Lean `String` (valid Unicode text).  The only
  string operations of the source are equality with `""`, `strings.TrimSuffix`
  with the one-byte suffix `"/"`, and concatenation through `fmt.Sprintf`.
* A Go `map[string]T` is an association list read with first-match lookup;
  `len` counts distinct keys and a missing key reads as the zero value.
* `net/http` is an external collaborator.  A request exposes its path, its
  header map, and the named cookie lookup `req.Cookie`, which net/http reads
  from the header `Cookie`; removing the cookies removes that header.  The effect of
  `ServeHTTP` is the list of calls it makes on its collaborators:
  `http.Redirect(rw, req, url, code)` or `next.ServeHTTP(rw, req)`.
-/

namespace Redirector

/-! ## Go primitives used by the source -/

/-- A Go `map[string]β`, as the list of its entries.  Lookup takes the first
entry with the key, so a later entry with the same key is not part of the map. -/
structure GoMap (β : Type) where
  entries : List (String × β)
deriving DecidableEq, Repr

namespace GoMap

/-- Go `len(m)`: the number of keys of the map. -/
def len {β : Type} (m : GoMap β) : Nat :=
  (m.entries.map Prod.fst).dedup.length

/-- Go `m[k]` with an explicit zero value `zero` for a missing key. -/
def get {β : Type} (m : GoMap β) (zero : β) (k : String) : β :=
  (m.entries.lookup k).getD zero

/-- The map after `for k, v := range m { if v == "" { delete(m, k) } }`: every
key whose value is `""` is removed, with all the list entries of that key. -/
def deleteEmpty (m : GoMap String) : GoMap String :=
  ⟨m.entries.filter (fun e => decide (m.get "" e.1 ≠ ""))⟩

/-- Go `delete(m, k)`. -/
def delete {β : Type} (m : GoMap β) (k : String) : GoMap β :=
  ⟨m.entries.filter (fun e => decide (e.1 ≠ k))⟩

end GoMap

/-- Go `strings.HasSuffix(s, suffix)`. -/
def HasSuffix (s suffix : String) : Bool :=
  suffix.data.isSuffixOf s.data

/-- Go `strings.TrimSuffix(s, suffix)`: `s[:len(s)-len(suffix)]` when `s` ends
in `suffix`, else `s` unchanged. -/
def TrimSuffix (s suffix : String) : String :=
  if HasSuffix s suffix then
    ⟨s.data.take (s.data.length - suffix.data.length)⟩
  else s

/-! ## Data model -/

/-- The plugin configuration (`type Config struct`). -/
structure Config where
  BaseURL : String
  DefaultPath : String
  RedirectCookies : List String
  RedirectHeaders : List String
  RedirectionMap : GoMap String
deriving DecidableEq, Repr

/-- The default plugin configuration (`CreateConfig`). -/
def CreateConfig : Config :=
  { BaseURL := ""
    DefaultPath := ""
    RedirectCookies := []
    RedirectHeaders := []
    RedirectionMap := ⟨[]⟩ }

/-- The handler (`type SiteRedirect struct`); `H` is the type of the handlers
of the chain, of which `next` is one. -/
structure SiteRedirect (H : Type) where
  config : Config
  next : H
  name : String
deriving DecidableEq, Repr

/-- What `ServeHTTP` reads of an `*http.Request`: `req.URL.Path`, the map
`req.Header`, and the lookup `req.Cookie(name)`, which is `none` where net/http
returns `http.ErrNoCookie` and otherwise the cookie's `Value`.  net/http
computes `req.Cookie` from the values of the header `Cookie`; the parser is
not part of this repository, so the lookup is a field of its own, and a value
of this type stands for a Go request when the field is what net/http reads
from `Header["Cookie"]`. -/
structure Request where
  Path : String
  Header : GoMap (List String)
  Cookie : String → Option String

/-- The request with all its cookies removed.  The cookies of an
`*http.Request` are the content of its header `Cookie`, so removing them is
`delete(req.Header, "Cookie")`, after which `req.Cookie` returns
`http.ErrNoCookie` for every name. -/
def Request.withoutCookies (req : Request) : Request :=
  { req with Header := req.Header.delete "Cookie", Cookie := fun _ => none }

/-- A call made by `ServeHTTP` on a collaborator. -/
inductive Call (H : Type) where
  /-- The call `http.Redirect(rw, req, url, code)`. -/
  | redirect (url : String) (code : Nat)
  /-- The call `h.ServeHTTP(rw, req)`. -/
  | serve (h : H) (req : Request)

/-! ## `New` -/

/-- `New`, without the unused `ctx`.  The source receives `config` by pointer
and assigns to `config.BaseURL`; the first component is the caller's
configuration after the call, the second the returned `(handler, error)`. -/
def New {H : Type} (next : H) (config : Config) (name : String) :
    Config × Except String (SiteRedirect H) :=
  if config.RedirectCookies.length = 0 ∧ config.RedirectHeaders.length = 0 then
    (config, .error "you must specify at least one from RedirectCookies or RedirectHeaders")
  else if config.RedirectionMap.len = 0 then
    (config, .error "redirection map cannot be empty")
  else if config.BaseURL = "" then
    (config, .error "baseUrl can't be empty")
  else
    let config := { config with BaseURL := TrimSuffix config.BaseURL "/" }
    if config.DefaultPath = "" then
      (config, .error "default path can't be empty")
    else
      (config, .ok { config := config, next := next, name := name })

/-! ## `ServeHTTP` -/

/-- `fmt.Sprintf("%s/%s/", a, b)`. -/
def sprintfMapped (a b : String) : String :=
  a ++ "/" ++ b ++ "/"

/-- `fmt.Sprintf("%s/%s", a, b)`. -/
def sprintfDefault (a b : String) : String :=
  a ++ "/" ++ b

/-- The loop `for _, cookieName := range s.config.RedirectCookies` over the
names still to visit: `some calls` when the body returns after making `calls`,
`none` when the loop runs to its end. -/
def cookieLoop {H : Type} (s : SiteRedirect H) (req : Request) :
    List String → Option (List (Call H))
  | [] => none
  | cookieName :: rest =>
    match req.Cookie cookieName with
    | none => cookieLoop s req rest
    | some value =>
      if s.config.RedirectionMap.get "" value ≠ "" then
        some [Call.redirect
          (sprintfMapped s.config.BaseURL (s.config.RedirectionMap.get "" value)) 301]
      else cookieLoop s req rest

/-- The loop `for _, hdr := range s.config.RedirectHeaders` over the names
still to visit, with the same reading of the result as `cookieLoop`. -/
def headerLoop {H : Type} (s : SiteRedirect H) (req : Request) :
    List String → Option (List (Call H))
  | [] => none
  | hdr :: rest =>
    let headerArr := req.Header.get [] hdr
    if headerArr.length ≠ 1 then headerLoop s req rest
    else if s.config.RedirectionMap.get "" (headerArr.headD "") ≠ "" then
      some [Call.redirect
        (sprintfMapped s.config.BaseURL
          (s.config.RedirectionMap.get "" (headerArr.headD ""))) 301]
    else headerLoop s req rest

/-- `(*SiteRedirect).ServeHTTP`: the calls it makes, in order. -/
def ServeHTTP {H : Type} (s : SiteRedirect H) (req : Request) : List (Call H) :=
  if req.Path = "/" ∨ req.Path = "" then
    match cookieLoop s req s.config.RedirectCookies with
    | some calls => calls
    | none =>
      match headerLoop s req s.config.RedirectHeaders with
      | some calls => calls
      | none =>
        [Call.redirect (sprintfDefault s.config.BaseURL s.config.DefaultPath) 301]
  else
    [Call.serve s.next req]

/-! ## Test fixtures of `redirect_test.go` -/

/-- The map `redirectMaps` of the tests. -/
def redirectMaps : GoMap String :=
  ⟨[("A", "a"), ("B", "b"), ("b", "b"), ("C", "c")]⟩

/-- The configuration of the test `no headers`. -/
def cfgNoHeaders : Config :=
  { BaseURL := "https://www.mysite.com"
    DefaultPath := "default/"
    RedirectCookies := []
    RedirectHeaders := ["header1"]
    RedirectionMap := redirectMaps }

/-- The configuration of the test `multiple headers`. -/
def cfgMultipleHeaders : Config :=
  { BaseURL := "https://www.mysite.com/"
    DefaultPath := "default/"
    RedirectCookies := []
    RedirectHeaders := ["header1", "header2"]
    RedirectionMap := redirectMaps }

/-- The configuration of the test `cookie headers`. -/
def cfgCookieHeaders : Config :=
  { BaseURL := "https://www.mysite.com/"
    DefaultPath := "default/"
    RedirectCookies := ["header2"]
    RedirectHeaders := ["header1"]
    RedirectionMap := redirectMaps }

/-- The configuration of the test `no redirect`. -/
def cfgNoRedirect : Config :=
  { BaseURL := "https://www.mysite.com/noexist"
    DefaultPath := "default/"
    RedirectCookies := []
    RedirectHeaders := ["dummy"]
    RedirectionMap := redirectMaps }

/-- A configuration with two cookie names, both before one header name. -/
def cfgTwoCookies : Config :=
  { BaseURL := "https://www.mysite.com"
    DefaultPath := "default/"
    RedirectCookies := ["cookie1", "cookie2"]
    RedirectHeaders := ["header1"]
    RedirectionMap := redirectMaps }

/-- The configuration of the test `cookie headers` with a second trailing
slash on `BaseURL`. -/
def cfgDoubleSlash : Config :=
  { cfgCookieHeaders with BaseURL := "https://www.mysite.com//" }

/-- The configuration of the test `cookie headers` with `BaseURL` the single
slash. -/
def cfgRootSlash : Config :=
  { cfgCookieHeaders with BaseURL := "/" }

/-- The handler `New` builds from `config` when it accepts it, with the name
used by the tests. -/
def testHandler (config : Config) : SiteRedirect Unit :=
  { config := { config with BaseURL := TrimSuffix config.BaseURL "/" }
    next := ()
    name := "redirect-test" }

/-- The request of the test `no headers`: URL `https://www.mysite.com`, no
header, no cookie. -/
def reqNoHeaders : Request :=
  { Path := "", Header := ⟨[]⟩, Cookie := fun _ => none }

/-- The headers of the test `multiple headers`, on the path `/`. -/
def reqMultipleHeaders : Request :=
  { Path := "/"
    Header := ⟨[("header1", ["B"]), ("header2", ["C"])]⟩
    Cookie := fun _ => none }

/-- The signals of the test `cookie headers`, on the path `/`: header
`header1: b` and the cookie `header2=C` added by `AddCookie`. -/
def reqCookieHeaders : Request :=
  { Path := "/"
    Header := ⟨[("header1", ["b"]), ("Cookie", ["header2=C"])]⟩
    Cookie := fun n => if n = "header2" then some "C" else none }

/-- The request of the test `no redirect`. -/
def reqNoRedirect : Request :=
  { Path := "/noexist", Header := ⟨[]⟩, Cookie := fun _ => none }

/-- A request carrying the cookies `cookie1=B` and `cookie2=C`. -/
def reqTwoCookies : Request :=
  { Path := "/"
    Header := ⟨[("Cookie", ["cookie1=B; cookie2=C"])]⟩
    Cookie := fun n =>
      if n = "cookie1" then some "B" else if n = "cookie2" then some "C" else none }

/-- The headers of the test `non-existent map`, on the path `/`. -/
def reqHeaderD : Request :=
  { Path := "/", Header := ⟨[("header1", ["D"])]⟩, Cookie := fun _ => none }

/-- The configuration of the test `cookie headers` with the map
`{A: a, D: ""}`, and the cookie name `cookie1`. -/
def cfgEmptyTarget : Config :=
  { cfgCookieHeaders with
    RedirectCookies := ["cookie1"]
    RedirectionMap := ⟨[("A", "a"), ("D", "")]⟩ }

/-- A request with the cookie `cookie1=D` and the header `header1: A`. -/
def reqCookieD : Request :=
  { Path := "/"
    Header := ⟨[("header1", ["A"]), ("Cookie", ["cookie1=D"])]⟩
    Cookie := fun n => if n = "cookie1" then some "D" else none }

/-- A request whose header `header1` carries the two values `A` and `B`, and
whose header `header2` carries the single value `C`. -/
def reqTwoValues : Request :=
  { Path := "/"
    Header := ⟨[("header1", ["A", "B"]), ("header2", ["C"])]⟩
    Cookie := fun _ => none }

/-- A request whose header map has the key `Header1`, with the value `A`, and
no key `header1`. -/
def reqCanonicalKey : Request :=
  { Path := "/", Header := ⟨[("Header1", ["A"])]⟩, Cookie := fun _ => none }

/-- A request whose header `header1` carries the value `a`, which is a target
of `redirectMaps` and not one of its keys. -/
def reqLowerValue : Request :=
  { Path := "/", Header := ⟨[("header1", ["a"])]⟩, Cookie := fun _ => none }

/-- A configuration that names the header `Cookie` among the redirect headers
and maps the header value `cookie1=D`. -/
def cfgCookieAsHeader : Config :=
  { BaseURL := "https://www.mysite.com"
    DefaultPath := "default/"
    RedirectCookies := ["cookie1"]
    RedirectHeaders := ["Cookie"]
    RedirectionMap := ⟨[("cookie1=D", "x")]⟩ }

/-- A request whose only header is `Cookie: cookie1=D`, that is, whose only
cookie is `cookie1=D`. -/
def reqCookieAsHeader : Request :=
  { Path := "/"
    Header := ⟨[("Cookie", ["cookie1=D"])]⟩
    Cookie := fun n => if n = "cookie1" then some "D" else none }

/-! ## Lemmas on the Go primitives -/

theorem GoMap.len_eq_zero_iff {β : Type} (m : GoMap β) : m.len = 0 ↔ m.entries = [] := by
  unfold GoMap.len
  rw [List.length_eq_zero, List.dedup_eq_nil, List.map_eq_nil_iff]

theorem HasSuffix_iff (s suffix : String) :
    HasSuffix s suffix = true ↔ ∃ b : String, s = b ++ suffix := by
  unfold HasSuffix
  rw [List.isSuffixOf_iff_suffix]
  constructor
  · rintro ⟨t, ht⟩
    exact ⟨⟨t⟩, String.ext (by simp [ht])⟩
  · rintro ⟨b, rfl⟩
    exact ⟨b.data, by simp⟩

theorem TrimSuffix_append (b suffix : String) : TrimSuffix (b ++ suffix) suffix = b := by
  have h : HasSuffix (b ++ suffix) suffix = true := (HasSuffix_iff _ _).2 ⟨b, rfl⟩
  unfold TrimSuffix
  rw [if_pos h]
  apply String.ext
  simp

theorem TrimSuffix_of_not_HasSuffix (s suffix : String) (h : HasSuffix s suffix = false) :
    TrimSuffix s suffix = s := by
  unfold TrimSuffix
  simp [h]

theorem lookup_filter_key {β : Type} (q : String → Bool) (k : String) :
    ∀ l : List (String × β),
      (l.filter (fun e => q e.1)).lookup k = if q k = true then l.lookup k else none
  | [] => by simp
  | (k', v) :: l => by
    have ih := lookup_filter_key q k l
    by_cases hk : k = k'
    · subst hk
      by_cases hq : q k = true
      · simp [List.filter_cons, hq]
      · simp [List.filter_cons, hq] at ih ⊢
        exact ih
    · have hbeq : (k == k') = false := by simpa using hk
      by_cases hq : q k' = true
      · simp only [List.filter_cons, hq, if_true, List.lookup_cons, hbeq]
        exact ih
      · simp only [List.filter_cons, hq, List.lookup_cons, hbeq]
        exact ih

theorem GoMap.deleteEmpty_lookup (m : GoMap String) (k : String) :
    m.deleteEmpty.entries.lookup k =
      if m.entries.lookup k = some "" then none else m.entries.lookup k := by
  unfold GoMap.deleteEmpty
  rw [lookup_filter_key (fun key => decide (m.get "" key ≠ "")) k m.entries]
  unfold GoMap.get
  cases h : m.entries.lookup k with
  | none => simp
  | some v =>
    by_cases hv : v = ""
    · simp [hv]
    · simp [hv]

theorem GoMap.deleteEmpty_get (m : GoMap String) (k : String) :
    m.deleteEmpty.get "" k = m.get "" k := by
  unfold GoMap.get
  rw [GoMap.deleteEmpty_lookup]
  split_ifs with h
  · rw [h]
    rfl
  · rfl

theorem GoMap.mem_of_get_ne {β : Type} (m : GoMap β) (zero : β) (k : String)
    (h : m.get zero k ≠ zero) : (k, m.get zero k) ∈ m.entries := by
  unfold GoMap.get at h ⊢
  cases hl : m.entries.lookup k with
  | none =>
    rw [hl] at h
    exact absurd rfl h
  | some v =>
    obtain ⟨l₁, l₂, hl', _⟩ := List.lookup_eq_some_iff.1 hl
    rw [hl']
    simp

theorem GoMap.delete_get_of_ne {β : Type} (m : GoMap β) (zero : β) (k h : String)
    (hne : h ≠ k) : (m.delete k).get zero h = m.get zero h := by
  unfold GoMap.get GoMap.delete
  rw [lookup_filter_key (fun key => decide (key ≠ k)) h m.entries]
  simp [hne]

theorem GoMap.get_of_not_key {β : Type} (m : GoMap β) (zero : β) (k : String)
    (h : k ∉ m.entries.map Prod.fst) : m.get zero k = zero := by
  unfold GoMap.get
  have : m.entries.lookup k = none := by
    rw [List.lookup_eq_none_iff]
    intro p hp
    simp only [bne_iff_ne, ne_eq]
    intro hk
    exact h (List.mem_map.2 ⟨p, hp, hk.symm⟩)
  rw [this]
  rfl

theorem eq_empty_of_length_eq_zero (t : String) (h : t.length = 0) : t = "" := by
  apply String.ext
  exact List.length_eq_zero.1 h

theorem mapped_ne_double_slash (a t : String) (ht : t ≠ "") :
    a ++ "/" ++ t ++ "/" ≠ a ++ "//" := by
  intro h
  have hlen := congrArg String.length h
  simp only [String.length_append] at hlen
  have h1 : ("/" : String).length = 1 := by decide
  have h2 : ("//" : String).length = 2 := by decide
  rw [h1, h2] at hlen
  exact ht (eq_empty_of_length_eq_zero t (by omega))

/-! ## Lemmas on `New` -/

/-- What an accepted configuration satisfies, and the handler `New` builds. -/
theorem New_ok_inv {H : Type} {next : H} {config : Config} {name : String}
    {s : SiteRedirect H} (h : (New next config name).2 = .ok s) :
    ¬ (config.RedirectCookies = [] ∧ config.RedirectHeaders = []) ∧
    config.RedirectionMap.len ≠ 0 ∧ config.BaseURL ≠ "" ∧ config.DefaultPath ≠ "" ∧
    s = { config := { config with BaseURL := TrimSuffix config.BaseURL "/" },
          next := next, name := name } := by
  unfold New at h
  simp only [List.length_eq_zero] at h
  split_ifs at h with h1 h2 h3 h4
  refine ⟨h1, h2, h3, h4, ?_⟩
  simp only [Except.ok.injEq] at h
  exact h.symm

/-- The fields of the handler `New` builds. -/
theorem New_ok_fields {H : Type} {next : H} {config : Config} {name : String}
    {s : SiteRedirect H} (h : (New next config name).2 = .ok s) :
    s.config.BaseURL = TrimSuffix config.BaseURL "/" ∧
    s.config.DefaultPath = config.DefaultPath ∧
    s.config.RedirectCookies = config.RedirectCookies ∧
    s.config.RedirectHeaders = config.RedirectHeaders ∧
    s.config.RedirectionMap = config.RedirectionMap ∧
    s.next = next := by
  obtain ⟨_, _, _, _, rfl⟩ := New_ok_inv h
  exact ⟨rfl, rfl, rfl, rfl, rfl, rfl⟩

/-! ## Lemmas on the loops of `ServeHTTP` -/

/-- The first element of a list with a property splits the list in a prefix
without the property, the element, and the rest. -/
theorem exists_first_split {α : Type} (P : α → Prop) :
    ∀ l : List α, (∃ a ∈ l, P a) →
      ∃ pre a post, l = pre ++ a :: post ∧ (∀ b ∈ pre, ¬ P b) ∧ P a
  | [], h => by
    obtain ⟨a, ha, _⟩ := h
    cases ha
  | x :: xs, h => by
    by_cases hx : P x
    · exact ⟨[], x, xs, rfl, by simp, hx⟩
    · have h' : ∃ a ∈ xs, P a := by
        obtain ⟨a, ha, hP⟩ := h
        rcases List.mem_cons.1 ha with rfl | ha'
        · exact absurd hP hx
        · exact ⟨a, ha', hP⟩
      obtain ⟨pre, a, post, hl, hpre, ha⟩ := exists_first_split P xs h'
      refine ⟨x :: pre, a, post, by simp [hl], ?_, ha⟩
      intro b hb
      rcases List.mem_cons.1 hb with rfl | hb'
      · exact hx
      · exact hpre b hb'

theorem cookieLoop_skip {H : Type} (s : SiteRedirect H) (req : Request) (rest : List String) :
    ∀ pre : List String,
      (∀ c ∈ pre, ∀ v, req.Cookie c = some v → s.config.RedirectionMap.get "" v = "") →
      cookieLoop s req (pre ++ rest) = cookieLoop s req rest
  | [], _ => rfl
  | c :: cs, h => by
    have ih := cookieLoop_skip s req rest cs (fun c' hc' => h c' (List.mem_cons_of_mem _ hc'))
    have hc := h c (List.mem_cons_self _ _)
    simp only [List.cons_append, cookieLoop]
    cases hv : req.Cookie c with
    | none => simpa using ih
    | some v => simp [hc v hv, ih]

theorem cookieLoop_hit {H : Type} (s : SiteRedirect H) (req : Request) (c v : String)
    (post : List String) (hv : req.Cookie c = some v)
    (ht : s.config.RedirectionMap.get "" v ≠ "") :
    cookieLoop s req (c :: post) =
      some [Call.redirect
        (s.config.BaseURL ++ "/" ++ s.config.RedirectionMap.get "" v ++ "/") 301] := by
  simp [cookieLoop, hv, ht, sprintfMapped]

theorem cookieLoop_none {H : Type} (s : SiteRedirect H) (req : Request) (cs : List String)
    (h : ∀ c ∈ cs, ∀ v, req.Cookie c = some v → s.config.RedirectionMap.get "" v = "") :
    cookieLoop s req cs = none := by
  have := cookieLoop_skip s req [] cs h
  simpa [cookieLoop] using this

theorem headerLoop_skip {H : Type} (s : SiteRedirect H) (req : Request) (rest : List String) :
    ∀ pre : List String,
      (∀ h ∈ pre, ∀ v, req.Header.get [] h = [v] → s.config.RedirectionMap.get "" v = "") →
      headerLoop s req (pre ++ rest) = headerLoop s req rest
  | [], _ => rfl
  | x :: xs, h => by
    have ih := headerLoop_skip s req rest xs (fun h' hh' => h h' (List.mem_cons_of_mem _ hh'))
    have hx := h x (List.mem_cons_self _ _)
    simp only [List.cons_append, headerLoop]
    split_ifs with h1 h2
    · exact ih
    · exfalso
      obtain ⟨v, hv⟩ := List.length_eq_one.1 (not_not.1 h1)
      rw [hv] at h2
      exact h2 (hx v hv)
    · exact ih

theorem headerLoop_hit {H : Type} (s : SiteRedirect H) (req : Request) (h v : String)
    (post : List String) (hv : req.Header.get [] h = [v])
    (ht : s.config.RedirectionMap.get "" v ≠ "") :
    headerLoop s req (h :: post) =
      some [Call.redirect
        (s.config.BaseURL ++ "/" ++ s.config.RedirectionMap.get "" v ++ "/") 301] := by
  simp [headerLoop, hv, ht, sprintfMapped]

theorem headerLoop_none {H : Type} (s : SiteRedirect H) (req : Request) (hs : List String)
    (h : ∀ x ∈ hs, ∀ v, req.Header.get [] x = [v] → s.config.RedirectionMap.get "" v = "") :
    headerLoop s req hs = none := by
  have := headerLoop_skip s req [] hs h
  simpa [headerLoop] using this

theorem ServeHTTP_root {H : Type} (s : SiteRedirect H) (req : Request)
    (hroot : req.Path = "" ∨ req.Path = "/") :
    ServeHTTP s req =
      match cookieLoop s req s.config.RedirectCookies with
      | some calls => calls
      | none =>
        match headerLoop s req s.config.RedirectHeaders with
        | some calls => calls
        | none =>
          [Call.redirect (s.config.BaseURL ++ "/" ++ s.config.DefaultPath) 301] := by
  unfold ServeHTTP
  rw [if_pos hroot.symm]
  rfl

theorem cookieLoop_shape {H : Type} (s : SiteRedirect H) (req : Request) :
    ∀ (cs : List String) (calls : List (Call H)), cookieLoop s req cs = some calls →
      ∃ url, calls = [Call.redirect url 301]
  | [], calls, h => by simp [cookieLoop] at h
  | c :: cs, calls, h => by
    simp only [cookieLoop] at h
    cases hv : req.Cookie c with
    | none =>
      rw [hv] at h
      exact cookieLoop_shape s req cs calls h
    | some v =>
      rw [hv] at h
      simp only at h
      split_ifs at h with h1
      · exact ⟨_, (Option.some.inj h).symm⟩
      · exact cookieLoop_shape s req cs calls h

theorem headerLoop_shape {H : Type} (s : SiteRedirect H) (req : Request) :
    ∀ (hs : List String) (calls : List (Call H)), headerLoop s req hs = some calls →
      ∃ url, calls = [Call.redirect url 301]
  | [], calls, h => by simp [headerLoop] at h
  | x :: xs, calls, h => by
    simp only [headerLoop] at h
    split_ifs at h with h1 h2
    · exact headerLoop_shape s req xs calls h
    · exact ⟨_, (Option.some.inj h).symm⟩
    · exact headerLoop_shape s req xs calls h

theorem ServeHTTP_cookie_hit {H : Type} (s : SiteRedirect H) (req : Request)
    (hroot : req.Path = "" ∨ req.Path = "/") (pre post : List String) (c v : String)
    (hl : s.config.RedirectCookies = pre ++ c :: post)
    (hpre : ∀ c' ∈ pre, ∀ v', req.Cookie c' = some v' → s.config.RedirectionMap.get "" v' = "")
    (hv : req.Cookie c = some v) (ht : s.config.RedirectionMap.get "" v ≠ "") :
    ServeHTTP s req =
      [Call.redirect (s.config.BaseURL ++ "/" ++ s.config.RedirectionMap.get "" v ++ "/") 301] := by
  rw [ServeHTTP_root s req hroot, hl, cookieLoop_skip s req _ pre hpre,
    cookieLoop_hit s req c v post hv ht]

theorem ServeHTTP_header_hit {H : Type} (s : SiteRedirect H) (req : Request)
    (hroot : req.Path = "" ∨ req.Path = "/") (pre post : List String) (h v : String)
    (hcook : ∀ c ∈ s.config.RedirectCookies, ∀ v', req.Cookie c = some v' →
      s.config.RedirectionMap.get "" v' = "")
    (hl : s.config.RedirectHeaders = pre ++ h :: post)
    (hpre : ∀ h' ∈ pre, ∀ v', req.Header.get [] h' = [v'] →
      s.config.RedirectionMap.get "" v' = "")
    (hv : req.Header.get [] h = [v]) (ht : s.config.RedirectionMap.get "" v ≠ "") :
    ServeHTTP s req =
      [Call.redirect (s.config.BaseURL ++ "/" ++ s.config.RedirectionMap.get "" v ++ "/") 301] := by
  rw [ServeHTTP_root s req hroot, cookieLoop_none s req _ hcook, hl,
    headerLoop_skip s req _ pre hpre, headerLoop_hit s req h v post hv ht]

theorem ServeHTTP_fallback {H : Type} (s : SiteRedirect H) (req : Request)
    (hroot : req.Path = "" ∨ req.Path = "/")
    (hcook : ∀ c ∈ s.config.RedirectCookies, ∀ v, req.Cookie c = some v →
      s.config.RedirectionMap.get "" v = "")
    (hhdr : ∀ h ∈ s.config.RedirectHeaders, ∀ v, req.Header.get [] h = [v] →
      s.config.RedirectionMap.get "" v = "") :
    ServeHTTP s req =
      [Call.redirect (s.config.BaseURL ++ "/" ++ s.config.DefaultPath) 301] := by
  rw [ServeHTTP_root s req hroot, cookieLoop_none s req _ hcook, headerLoop_none s req _ hhdr]

theorem ServeHTTP_root_shape {H : Type} (s : SiteRedirect H) (req : Request)
    (hroot : req.Path = "" ∨ req.Path = "/") :
    ∃ url, ServeHTTP s req = [Call.redirect url 301] := by
  rw [ServeHTTP_root s req hroot]
  cases hc : cookieLoop s req s.config.RedirectCookies with
  | some calls =>
    obtain ⟨url, rfl⟩ := cookieLoop_shape s req _ calls hc
    exact ⟨url, rfl⟩
  | none =>
    cases hh : headerLoop s req s.config.RedirectHeaders with
    | some calls =>
      obtain ⟨url, rfl⟩ := headerLoop_shape s req _ calls hh
      exact ⟨url, rfl⟩
    | none => exact ⟨_, rfl⟩

theorem ne_append_slash (a : String) : a ≠ a ++ "/" := by
  intro h
  have := congrArg String.length h
  simp at this
  exact absurd this (by decide)

theorem New_trim_eq {H : Type} (next : H) (config : Config) (name : String) (b : String)
    (hb : b ≠ "") (hs : ∀ b' : String, b ≠ b' ++ "/") :
    (New next { config with BaseURL := b ++ "/" } name).2 =
      (New next { config with BaseURL := b } name).2 := by
  have h1 : TrimSuffix (b ++ "/") "/" = b := TrimSuffix_append b "/"
  have h2 : TrimSuffix b "/" = b := by
    apply TrimSuffix_of_not_HasSuffix
    cases hh : HasSuffix b "/" with
    | false => rfl
    | true =>
      obtain ⟨b', hb'⟩ := (HasSuffix_iff b "/").1 hh
      exact absurd hb' (hs b')
  have h3 : b ++ "/" ≠ "" := by
    intro h
    have := congrArg String.length h
    simp at this
    exact absurd this.2 (by decide)
  unfold New
  simp only [h1, h2, if_neg h3, if_neg hb]
  split_ifs <;> rfl

/-- The caller's configuration after `New`. -/
theorem New_fst {H : Type} (next : H) (config : Config) (name : String) :
    (New next config name).1 =
      if (config.RedirectCookies = [] ∧ config.RedirectHeaders = []) ∨
          config.RedirectionMap.len = 0 ∨ config.BaseURL = "" then config
      else { config with BaseURL := TrimSuffix config.BaseURL "/" } := by
  unfold New
  simp only [List.length_eq_zero]
  by_cases h1 : config.RedirectCookies = [] ∧ config.RedirectHeaders = []
  · rw [if_pos h1, if_pos (Or.inl h1)]
  · by_cases h2 : config.RedirectionMap.len = 0
    · rw [if_neg h1, if_pos h2, if_pos (Or.inr (Or.inl h2))]
    · by_cases h3 : config.BaseURL = ""
      · rw [if_neg h1, if_neg h2, if_pos h3, if_pos (Or.inr (Or.inr h3))]
      · have hn : ¬ ((config.RedirectCookies = [] ∧ config.RedirectHeaders = []) ∨
            config.RedirectionMap.len = 0 ∨ config.BaseURL = "") := by
          rintro (h | h | h)
          · exact h1 h
          · exact h2 h
          · exact h3 h
        rw [if_neg h1, if_neg h2, if_neg h3, if_neg hn]
        dsimp only
        split_ifs <;> rfl

/-! ## Lemmas on what the loops depend on -/

theorem cookieLoop_congr {H : Type} (s s' : SiteRedirect H) (req req' : Request)
    (hB : s'.config.BaseURL = s.config.BaseURL)
    (hmap : ∀ k, s'.config.RedirectionMap.get "" k = s.config.RedirectionMap.get "" k) :
    ∀ cs : List String, (∀ c ∈ cs, req'.Cookie c = req.Cookie c) →
      cookieLoop s' req' cs = cookieLoop s req cs
  | [], _ => rfl
  | c :: cs, h => by
    have ih := cookieLoop_congr s s' req req' hB hmap cs
      (fun c' hc' => h c' (List.mem_cons_of_mem _ hc'))
    simp only [cookieLoop, h c (List.mem_cons_self _ _), hB, hmap, ih]

theorem headerLoop_congr {H : Type} (s s' : SiteRedirect H) (req req' : Request)
    (hB : s'.config.BaseURL = s.config.BaseURL)
    (hmap : ∀ k, s'.config.RedirectionMap.get "" k = s.config.RedirectionMap.get "" k) :
    ∀ hs : List String, (∀ h ∈ hs, req'.Header.get [] h = req.Header.get [] h) →
      headerLoop s' req' hs = headerLoop s req hs
  | [], _ => rfl
  | x :: xs, h => by
    have ih := headerLoop_congr s s' req req' hB hmap xs
      (fun x' hx' => h x' (List.mem_cons_of_mem _ hx'))
    simp only [headerLoop, h x (List.mem_cons_self _ _), hB, hmap, ih]

/-- On a root path the calls depend on the handler through its base URL, its
default path, its two name lists and the lookups in its map, and on the
request through the lookups of the configured names. -/
theorem ServeHTTP_root_congr {H : Type} (s s' : SiteRedirect H) (req req' : Request)
    (hroot : req.Path = "" ∨ req.Path = "/") (hroot' : req'.Path = "" ∨ req'.Path = "/")
    (hB : s'.config.BaseURL = s.config.BaseURL)
    (hD : s'.config.DefaultPath = s.config.DefaultPath)
    (hC : s'.config.RedirectCookies = s.config.RedirectCookies)
    (hH : s'.config.RedirectHeaders = s.config.RedirectHeaders)
    (hmap : ∀ k, s'.config.RedirectionMap.get "" k = s.config.RedirectionMap.get "" k)
    (hc : ∀ c ∈ s.config.RedirectCookies, req'.Cookie c = req.Cookie c)
    (hh : ∀ h ∈ s.config.RedirectHeaders, req'.Header.get [] h = req.Header.get [] h) :
    ServeHTTP s' req' = ServeHTTP s req := by
  rw [ServeHTTP_root s req hroot, ServeHTTP_root s' req' hroot', hC, hH, hB, hD,
    cookieLoop_congr s s' req req' hB hmap _ hc, headerLoop_congr s s' req req' hB hmap _ hh]

theorem cookieLoop_some {H : Type} (s : SiteRedirect H) (req : Request) :
    ∀ (cs : List String) (calls : List (Call H)), cookieLoop s req cs = some calls →
      ∃ c ∈ cs, ∃ v, req.Cookie c = some v ∧ s.config.RedirectionMap.get "" v ≠ "" ∧
        calls = [Call.redirect
          (s.config.BaseURL ++ "/" ++ s.config.RedirectionMap.get "" v ++ "/") 301]
  | [], calls, h => by simp [cookieLoop] at h
  | c :: cs, calls, h => by
    simp only [cookieLoop] at h
    cases hv : req.Cookie c with
    | none =>
      rw [hv] at h
      obtain ⟨c', hc', v, h1, h2, h3⟩ := cookieLoop_some s req cs calls h
      exact ⟨c', List.mem_cons_of_mem _ hc', v, h1, h2, h3⟩
    | some v =>
      rw [hv] at h
      simp only at h
      split_ifs at h with h1
      · exact ⟨c, List.mem_cons_self _ _, v, hv, h1, (Option.some.inj h).symm⟩
      · obtain ⟨c', hc', v', h1', h2, h3⟩ := cookieLoop_some s req cs calls h
        exact ⟨c', List.mem_cons_of_mem _ hc', v', h1', h2, h3⟩

theorem headerLoop_some {H : Type} (s : SiteRedirect H) (req : Request) :
    ∀ (hs : List String) (calls : List (Call H)), headerLoop s req hs = some calls →
      ∃ x ∈ hs, ∃ v, req.Header.get [] x = [v] ∧ s.config.RedirectionMap.get "" v ≠ "" ∧
        calls = [Call.redirect
          (s.config.BaseURL ++ "/" ++ s.config.RedirectionMap.get "" v ++ "/") 301]
  | [], calls, h => by simp [headerLoop] at h
  | x :: xs, calls, h => by
    simp only [headerLoop] at h
    split_ifs at h with h1 h2
    · obtain ⟨x', hx', v, h1', h2', h3⟩ := headerLoop_some s req xs calls h
      exact ⟨x', List.mem_cons_of_mem _ hx', v, h1', h2', h3⟩
    · obtain ⟨v, hv⟩ := List.length_eq_one.1 (not_not.1 h1)
      rw [hv] at h2 h
      exact ⟨x, List.mem_cons_self _ _, v, hv, h2, (Option.some.inj h).symm⟩
    · obtain ⟨x', hx', v, h1', h2', h3⟩ := headerLoop_some s req xs calls h
      exact ⟨x', List.mem_cons_of_mem _ hx', v, h1', h2', h3⟩

/-- The two forms of the call made on a root path: the fallback, or a mapped
redirect whose target is a non-empty value read from the map. -/
theorem ServeHTTP_root_cases {H : Type} (s : SiteRedirect H) (req : Request)
    (hroot : req.Path = "" ∨ req.Path = "/") :
    ServeHTTP s req =
        [Call.redirect (s.config.BaseURL ++ "/" ++ s.config.DefaultPath) 301] ∨
    ∃ v, s.config.RedirectionMap.get "" v ≠ "" ∧
      ServeHTTP s req =
        [Call.redirect
          (s.config.BaseURL ++ "/" ++ s.config.RedirectionMap.get "" v ++ "/") 301] := by
  rw [ServeHTTP_root s req hroot]
  cases hc : cookieLoop s req s.config.RedirectCookies with
  | some calls =>
    obtain ⟨_, _, v, _, h2, h3⟩ := cookieLoop_some s req _ calls hc
    exact Or.inr ⟨v, h2, h3⟩
  | none =>
    cases hh : headerLoop s req s.config.RedirectHeaders with
    | some calls =>
      obtain ⟨_, _, v, _, h2, h3⟩ := headerLoop_some s req _ calls hh
      exact Or.inr ⟨v, h2, h3⟩
    | none => exact Or.inl rfl

/-- On a root path, when no configured cookie resolves, the header loop
decides. -/
theorem ServeHTTP_no_cookie {H : Type} (s : SiteRedirect H) (req : Request)
    (hroot : req.Path = "" ∨ req.Path = "/")
    (hcook : ∀ c ∈ s.config.RedirectCookies, ∀ v, req.Cookie c = some v →
      s.config.RedirectionMap.get "" v = "") :
    ServeHTTP s req =
      match headerLoop s req s.config.RedirectHeaders with
      | some calls => calls
      | none => [Call.redirect (s.config.BaseURL ++ "/" ++ s.config.DefaultPath) 301] := by
  rw [ServeHTTP_root s req hroot, cookieLoop_none s req _ hcook]

/-! ## Claims on `New` -/

/-- C1: `New` returns an error exactly when the signal-source lists are both
empty, or the redirection map has no entry, or `BaseURL` is empty, or
`DefaultPath` is empty; it returns a handler exactly in every other case. -/
theorem New_fails_iff {H : Type} (next : H) (config : Config) (name : String) :
    ((∃ e, (New next config name).2 = .error e) ↔
      ((config.RedirectCookies = [] ∧ config.RedirectHeaders = []) ∨
        config.RedirectionMap.len = 0 ∨ config.BaseURL = "" ∨ config.DefaultPath = "")) ∧
    ((∃ s, (New next config name).2 = .ok s) ↔
      ¬ ((config.RedirectCookies = [] ∧ config.RedirectHeaders = []) ∨
        config.RedirectionMap.len = 0 ∨ config.BaseURL = "" ∨ config.DefaultPath = "")) := by
  unfold New
  simp only [List.length_eq_zero]
  split_ifs with h1 h2 h3 h4 <;> simp_all

/-- C2: when several validation rules are violated at once, `New` reports the
first violated rule in the order signal source, redirection map, base URL,
default path. -/
theorem New_error_order {H : Type} (next : H) (config : Config) (name : String) :
    ((config.RedirectCookies = [] ∧ config.RedirectHeaders = []) →
      (New next config name).2 =
        .error "you must specify at least one from RedirectCookies or RedirectHeaders") ∧
    (¬ (config.RedirectCookies = [] ∧ config.RedirectHeaders = []) →
      config.RedirectionMap.len = 0 →
      (New next config name).2 = .error "redirection map cannot be empty") ∧
    (¬ (config.RedirectCookies = [] ∧ config.RedirectHeaders = []) →
      config.RedirectionMap.len ≠ 0 → config.BaseURL = "" →
      (New next config name).2 = .error "baseUrl can't be empty") ∧
    (¬ (config.RedirectCookies = [] ∧ config.RedirectHeaders = []) →
      config.RedirectionMap.len ≠ 0 → config.BaseURL ≠ "" → config.DefaultPath = "" →
      (New next config name).2 = .error "default path can't be empty") := by
  unfold New
  simp only [List.length_eq_zero]
  refine ⟨fun h1 => ?_, fun h1 h2 => ?_, fun h1 h2 h3 => ?_, fun h1 h2 h3 h4 => ?_⟩
  · rw [if_pos h1]
  · rw [if_neg h1, if_pos h2]
  · rw [if_neg h1, if_neg h2, if_pos h3]
  · rw [if_neg h1, if_neg h2, if_neg h3]
    simp only [h4, if_true]

/-- Witness of C2: the default configuration, which violates every rule, gets
the signal-source error; a configuration violating only the last two rules
gets the base-URL error; the four messages are distinct. -/
theorem New_error_order_witness :
    (New () CreateConfig "t").2 =
      .error "you must specify at least one from RedirectCookies or RedirectHeaders" ∧
    (New () { CreateConfig with RedirectCookies := ["c"], RedirectionMap := redirectMaps } "t").2 =
      .error "baseUrl can't be empty" ∧
    "you must specify at least one from RedirectCookies or RedirectHeaders" ≠
      "redirection map cannot be empty" ∧
    "redirection map cannot be empty" ≠ "baseUrl can't be empty" ∧
    "baseUrl can't be empty" ≠ "default path can't be empty" :=
  ⟨(New_error_order () CreateConfig "t").1 ⟨rfl, rfl⟩,
   (New_error_order ()
      { CreateConfig with RedirectCookies := ["c"], RedirectionMap := redirectMaps } "t").2.2.1
      (by decide) (by decide) rfl,
   by decide, by decide, by decide⟩

/-! ## Claims on `ServeHTTP` -/

/-- C3: for a handler built by `New` and a request whose path is neither `""`
nor `"/"`, `ServeHTTP` makes exactly one call, `next.ServeHTTP(rw, req)` on the
handler given to `New` with the request it received, and no redirect. -/
theorem ServeHTTP_nonroot_delegates {H : Type} (next : H) (config : Config) (name : String)
    (s : SiteRedirect H) (req : Request)
    (hnew : (New next config name).2 = .ok s)
    (hne : req.Path ≠ "") (hns : req.Path ≠ "/") :
    ServeHTTP s req = [Call.serve next req] := by
  obtain ⟨_, _, _, _, rfl⟩ := New_ok_inv hnew
  unfold ServeHTTP
  rw [if_neg (by rintro (h | h) <;> contradiction)]

/-- Witness of C3: the test `no redirect`, path `/noexist`. -/
theorem ServeHTTP_nonroot_delegates_witness :
    ServeHTTP (testHandler cfgNoRedirect) reqNoRedirect = [Call.serve () reqNoRedirect] :=
  ServeHTTP_nonroot_delegates () cfgNoRedirect "redirect-test" (testHandler cfgNoRedirect)
    reqNoRedirect rfl (by decide) (by decide)

/-- C4: for a handler built by `New` and a root-path request on which some
configured cookie is present with a value mapped to a non-empty target, the
cookie names split as `pre ++ c :: post` where no name of `pre` resolves and
`c` does, and the only call is the 301 redirect to
`baseURL/t/` with `t` the target mapped to the value of `c`. -/
theorem ServeHTTP_first_cookie {H : Type} (next : H) (config : Config) (name : String)
    (s : SiteRedirect H) (req : Request)
    (hnew : (New next config name).2 = .ok s)
    (hroot : req.Path = "" ∨ req.Path = "/")
    (hex : ∃ c ∈ config.RedirectCookies, ∃ v, req.Cookie c = some v ∧
      config.RedirectionMap.get "" v ≠ "") :
    ∃ pre c post v, config.RedirectCookies = pre ++ c :: post ∧
      (∀ c' ∈ pre, ∀ v', req.Cookie c' = some v' → config.RedirectionMap.get "" v' = "") ∧
      req.Cookie c = some v ∧ config.RedirectionMap.get "" v ≠ "" ∧
      ServeHTTP s req =
        [Call.redirect
          (s.config.BaseURL ++ "/" ++ config.RedirectionMap.get "" v ++ "/") 301] := by
  obtain ⟨_, _, _, _, rfl⟩ := New_ok_inv hnew
  obtain ⟨pre, c, post, hl, hpre, v, hv, ht⟩ :=
    exists_first_split
      (fun c => ∃ v, req.Cookie c = some v ∧ config.RedirectionMap.get "" v ≠ "") _ hex
  have hpre' : ∀ c' ∈ pre, ∀ v', req.Cookie c' = some v' →
      config.RedirectionMap.get "" v' = "" := by
    intro c' hc' v' hv'
    by_contra hne
    exact hpre c' hc' ⟨v', hv', hne⟩
  exact ⟨pre, c, post, v, hl, hpre', hv, ht,
    ServeHTTP_cookie_hit _ req hroot pre post c v hl hpre' hv ht⟩

/-- Witness of C4: with cookie names `[cookie1, cookie2]` and the cookies
`cookie1=B`, `cookie2=C`, the redirect goes to `.../b/`. -/
theorem ServeHTTP_first_cookie_witness :
    (∃ pre c post v, cfgTwoCookies.RedirectCookies = pre ++ c :: post ∧
      (∀ c' ∈ pre, ∀ v', reqTwoCookies.Cookie c' = some v' →
        cfgTwoCookies.RedirectionMap.get "" v' = "") ∧
      reqTwoCookies.Cookie c = some v ∧ cfgTwoCookies.RedirectionMap.get "" v ≠ "" ∧
      ServeHTTP (testHandler cfgTwoCookies) reqTwoCookies =
        [Call.redirect
          ((testHandler cfgTwoCookies).config.BaseURL ++ "/" ++
            cfgTwoCookies.RedirectionMap.get "" v ++ "/") 301]) ∧
    ServeHTTP (testHandler cfgTwoCookies) reqTwoCookies =
      [Call.redirect "https://www.mysite.com/b/" 301] :=
  ⟨ServeHTTP_first_cookie () cfgTwoCookies "redirect-test" (testHandler cfgTwoCookies)
      reqTwoCookies rfl (Or.inr rfl)
      ⟨"cookie2", by decide, "C", rfl, by decide⟩,
   rfl⟩

/-- C5: cookie precedence.  For handlers built by `New` from configurations
that differ only in `RedirectHeaders`, and root-path requests that differ only
in their header map, on which some configured cookie is present with a value
mapped to a non-empty target: both outcomes are the same 301 redirect, to
`baseURL/t/` with `t` the target mapped to the value of a configured cookie. -/
theorem cookie_precedence {H : Type} (next : H) (config : Config) (name : String)
    (headers' : List String) (s s' : SiteRedirect H) (req : Request)
    (header' : GoMap (List String))
    (hnew : (New next config name).2 = .ok s)
    (hnew' : (New next { config with RedirectHeaders := headers' } name).2 = .ok s')
    (hroot : req.Path = "" ∨ req.Path = "/")
    (hex : ∃ c ∈ config.RedirectCookies, ∃ v, req.Cookie c = some v ∧
      config.RedirectionMap.get "" v ≠ "") :
    ServeHTTP s' { req with Header := header' } = ServeHTTP s req ∧
    ∃ c ∈ config.RedirectCookies, ∃ v, req.Cookie c = some v ∧
      config.RedirectionMap.get "" v ≠ "" ∧
      ServeHTTP s req =
        [Call.redirect
          (s.config.BaseURL ++ "/" ++ config.RedirectionMap.get "" v ++ "/") 301] := by
  obtain ⟨_, _, _, _, rfl⟩ := New_ok_inv hnew
  obtain ⟨_, _, _, _, rfl⟩ := New_ok_inv hnew'
  obtain ⟨pre, c, post, hl, hpre, v, hv, ht⟩ :=
    exists_first_split
      (fun c => ∃ v, req.Cookie c = some v ∧ config.RedirectionMap.get "" v ≠ "") _ hex
  have hpre' : ∀ c' ∈ pre, ∀ v', req.Cookie c' = some v' →
      config.RedirectionMap.get "" v' = "" := by
    intro c' hc' v' hv'
    by_contra hne
    exact hpre c' hc' ⟨v', hv', hne⟩
  have h1 := ServeHTTP_cookie_hit
    ({ config := { config with BaseURL := TrimSuffix config.BaseURL "/" },
       next := next, name := name } : SiteRedirect H)
    req hroot pre post c v hl hpre' hv ht
  have h2 := ServeHTTP_cookie_hit
    ({ config := { BaseURL := TrimSuffix config.BaseURL "/", DefaultPath := config.DefaultPath,
                   RedirectCookies := config.RedirectCookies, RedirectHeaders := headers',
                   RedirectionMap := config.RedirectionMap },
       next := next, name := name } : SiteRedirect H)
    { req with Header := header' } hroot pre post c v hl hpre' hv ht
  refine ⟨h2.trans h1.symm, c, ?_, v, hv, ht, h1⟩
  rw [hl]
  simp

/-- Witness of C5: the test `cookie headers`.  Cookie `header2=C` with header
`header1: b` redirects to `.../c/`, also when the header names and the
request headers are replaced by others. -/
theorem cookie_precedence_witness :
    (ServeHTTP (testHandler { cfgCookieHeaders with RedirectHeaders := ["header3"] })
        { reqCookieHeaders with Header := ⟨[("header3", ["A"])]⟩ } =
      ServeHTTP (testHandler cfgCookieHeaders) reqCookieHeaders ∧
    ∃ c ∈ cfgCookieHeaders.RedirectCookies, ∃ v, reqCookieHeaders.Cookie c = some v ∧
      cfgCookieHeaders.RedirectionMap.get "" v ≠ "" ∧
      ServeHTTP (testHandler cfgCookieHeaders) reqCookieHeaders =
        [Call.redirect
          ((testHandler cfgCookieHeaders).config.BaseURL ++ "/" ++
            cfgCookieHeaders.RedirectionMap.get "" v ++ "/") 301]) ∧
    ServeHTTP (testHandler cfgCookieHeaders) reqCookieHeaders =
      [Call.redirect "https://www.mysite.com/c/" 301] ∧
    reqCookieHeaders.Header.get [] "header1" = ["b"] ∧
    cfgCookieHeaders.RedirectionMap.get "" "b" = "b" :=
  ⟨cookie_precedence () cfgCookieHeaders "redirect-test" ["header3"]
      (testHandler cfgCookieHeaders)
      (testHandler { cfgCookieHeaders with RedirectHeaders := ["header3"] })
      reqCookieHeaders ⟨[("header3", ["A"])]⟩ rfl rfl (Or.inr rfl)
      ⟨"header2", by decide, "C", rfl, by decide⟩,
   rfl, rfl, rfl⟩

/-- C6: for a handler built by `New` and a root-path request on which no
configured cookie resolves and some configured header has exactly one value,
mapped to a non-empty target, the header names split as `pre ++ h :: post`
where no name of `pre` resolves and `h` does, and the only call is the 301
redirect to `baseURL/t/` with `t` the target mapped to the value of `h`. -/
theorem ServeHTTP_first_header {H : Type} (next : H) (config : Config) (name : String)
    (s : SiteRedirect H) (req : Request)
    (hnew : (New next config name).2 = .ok s)
    (hroot : req.Path = "" ∨ req.Path = "/")
    (hcook : ∀ c ∈ config.RedirectCookies, ∀ v, req.Cookie c = some v →
      config.RedirectionMap.get "" v = "")
    (hex : ∃ h ∈ config.RedirectHeaders, ∃ v, req.Header.get [] h = [v] ∧
      config.RedirectionMap.get "" v ≠ "") :
    ∃ pre h post v, config.RedirectHeaders = pre ++ h :: post ∧
      (∀ h' ∈ pre, ∀ v', req.Header.get [] h' = [v'] →
        config.RedirectionMap.get "" v' = "") ∧
      req.Header.get [] h = [v] ∧ config.RedirectionMap.get "" v ≠ "" ∧
      ServeHTTP s req =
        [Call.redirect
          (s.config.BaseURL ++ "/" ++ config.RedirectionMap.get "" v ++ "/") 301] := by
  obtain ⟨_, _, _, _, rfl⟩ := New_ok_inv hnew
  obtain ⟨pre, h, post, hl, hpre, v, hv, ht⟩ :=
    exists_first_split
      (fun h => ∃ v, req.Header.get [] h = [v] ∧ config.RedirectionMap.get "" v ≠ "") _ hex
  have hpre' : ∀ h' ∈ pre, ∀ v', req.Header.get [] h' = [v'] →
      config.RedirectionMap.get "" v' = "" := by
    intro h' hh' v' hv'
    by_contra hne
    exact hpre h' hh' ⟨v', hv', hne⟩
  exact ⟨pre, h, post, v, hl, hpre', hv, ht,
    ServeHTTP_header_hit _ req hroot pre post h v hcook hl hpre' hv ht⟩

/-- Witness of C6: the test `multiple headers`.  Headers `header1: B` and
`header2: C` with the order `[header1, header2]` redirect to `.../b/`. -/
theorem ServeHTTP_first_header_witness :
    (∃ pre h post v, cfgMultipleHeaders.RedirectHeaders = pre ++ h :: post ∧
      (∀ h' ∈ pre, ∀ v', reqMultipleHeaders.Header.get [] h' = [v'] →
        cfgMultipleHeaders.RedirectionMap.get "" v' = "") ∧
      reqMultipleHeaders.Header.get [] h = [v] ∧
      cfgMultipleHeaders.RedirectionMap.get "" v ≠ "" ∧
      ServeHTTP (testHandler cfgMultipleHeaders) reqMultipleHeaders =
        [Call.redirect
          ((testHandler cfgMultipleHeaders).config.BaseURL ++ "/" ++
            cfgMultipleHeaders.RedirectionMap.get "" v ++ "/") 301]) ∧
    ServeHTTP (testHandler cfgMultipleHeaders) reqMultipleHeaders =
      [Call.redirect "https://www.mysite.com/b/" 301] :=
  ⟨ServeHTTP_first_header () cfgMultipleHeaders "redirect-test"
      (testHandler cfgMultipleHeaders) reqMultipleHeaders rfl (Or.inr rfl)
      (by intro c hc; cases hc)
      ⟨"header2", by decide, "C", rfl, by decide⟩,
   rfl⟩

/-- C7: fallback.  For a handler built by `New` and a root-path request on
which no configured cookie and no configured header yields a non-empty mapped
target, the only call is the 301 redirect to `baseURL/DefaultPath`, and not to
that target followed by `/`. -/
theorem ServeHTTP_fallback_default {H : Type} (next : H) (config : Config) (name : String)
    (s : SiteRedirect H) (req : Request)
    (hnew : (New next config name).2 = .ok s)
    (hroot : req.Path = "" ∨ req.Path = "/")
    (hcook : ∀ c ∈ config.RedirectCookies, ∀ v, req.Cookie c = some v →
      config.RedirectionMap.get "" v = "")
    (hhdr : ∀ h ∈ config.RedirectHeaders, ∀ v, req.Header.get [] h = [v] →
      config.RedirectionMap.get "" v = "") :
    ServeHTTP s req =
      [Call.redirect (s.config.BaseURL ++ "/" ++ config.DefaultPath) 301] ∧
    ServeHTTP s req ≠
      [Call.redirect (s.config.BaseURL ++ "/" ++ config.DefaultPath ++ "/") 301] := by
  obtain ⟨_, _, _, _, rfl⟩ := New_ok_inv hnew
  have h := ServeHTTP_fallback
    ({ config := { config with BaseURL := TrimSuffix config.BaseURL "/" },
       next := next, name := name } : SiteRedirect H) req hroot hcook hhdr
  refine ⟨h, ?_⟩
  rw [h]
  intro heq
  simp only [List.cons.injEq, Call.redirect.injEq, and_true] at heq
  exact ne_append_slash _ heq

/-- Witness of C7: the test `no headers` redirects to `.../default/`. -/
theorem ServeHTTP_fallback_default_witness :
    (ServeHTTP (testHandler cfgNoHeaders) reqNoHeaders =
      [Call.redirect
        ((testHandler cfgNoHeaders).config.BaseURL ++ "/" ++ cfgNoHeaders.DefaultPath) 301] ∧
    ServeHTTP (testHandler cfgNoHeaders) reqNoHeaders ≠
      [Call.redirect
        ((testHandler cfgNoHeaders).config.BaseURL ++ "/" ++ cfgNoHeaders.DefaultPath ++ "/")
        301]) ∧
    ServeHTTP (testHandler cfgNoHeaders) reqNoHeaders =
      [Call.redirect "https://www.mysite.com/default/" 301] :=
  ⟨ServeHTTP_fallback_default () cfgNoHeaders "redirect-test" (testHandler cfgNoHeaders)
      reqNoHeaders rfl (Or.inl rfl)
      (by intro c hc; cases hc)
      (by
        intro h hh v hv
        rw [List.mem_singleton.1 hh] at hv
        have hnil : ([] : List String) = [v] := hv
        cases hnil),
   rfl⟩

/-- C8: for a handler built by `New` and a request with path `""` or `"/"`,
`ServeHTTP` makes exactly one call, an `http.Redirect` with status 301, and
never calls a handler of the chain. -/
theorem ServeHTTP_root_redirects {H : Type} (next : H) (config : Config) (name : String)
    (s : SiteRedirect H) (req : Request)
    (hnew : (New next config name).2 = .ok s)
    (hroot : req.Path = "" ∨ req.Path = "/") :
    (∃ url, ServeHTTP s req = [Call.redirect url 301]) ∧
    ∀ (h : H) (r : Request), Call.serve h r ∉ ServeHTTP s req := by
  obtain ⟨_, _, _, _, rfl⟩ := New_ok_inv hnew
  obtain ⟨url, hurl⟩ := ServeHTTP_root_shape _ req hroot
  refine ⟨⟨url, hurl⟩, ?_⟩
  intro h r hmem
  rw [hurl] at hmem
  simp at hmem

/-- Witness of C8: the requests of the tests `cookie headers` (path `/`). -/
theorem ServeHTTP_root_redirects_witness :
    (∃ url, ServeHTTP (testHandler cfgCookieHeaders) reqCookieHeaders =
      [Call.redirect url 301]) ∧
    ∀ (h : Unit) (r : Request),
      Call.serve h r ∉ ServeHTTP (testHandler cfgCookieHeaders) reqCookieHeaders :=
  ServeHTTP_root_redirects () cfgCookieHeaders "redirect-test" (testHandler cfgCookieHeaders)
    reqCookieHeaders rfl (Or.inr rfl)

/-- C9: idempotent trimming.  For a non-empty `b` that does not end in `/`,
`New` returns the same result for `BaseURL = b` and for `BaseURL = b ++ "/"`:
it rejects both with the same error or accepts both, and the two handlers make
the same calls on every request. -/
theorem New_trailing_slash_idempotent {H : Type} (next : H) (config : Config)
    (name : String) (b : String) (hb : b ≠ "") (hs : ∀ b' : String, b ≠ b' ++ "/") :
    (∀ e, (New next { config with BaseURL := b } name).2 = .error e ↔
      (New next { config with BaseURL := b ++ "/" } name).2 = .error e) ∧
    ((∃ s, (New next { config with BaseURL := b } name).2 = .ok s) ↔
      (∃ s', (New next { config with BaseURL := b ++ "/" } name).2 = .ok s')) ∧
    (∀ s s', (New next { config with BaseURL := b } name).2 = .ok s →
      (New next { config with BaseURL := b ++ "/" } name).2 = .ok s' →
      ∀ req, ServeHTTP s req = ServeHTTP s' req) := by
  have h := New_trim_eq next config name b hb hs
  refine ⟨fun e => by rw [h], by rw [h], ?_⟩
  intro s s' hs1 hs2 req
  rw [h, hs1] at hs2
  cases hs2
  rfl

/-- Witness of C9: the base URLs of the tests, `https://www.mysite.com` and
`https://www.mysite.com/`. -/
theorem New_trailing_slash_idempotent_witness :
    (∀ e, (New () { cfgCookieHeaders with BaseURL := "https://www.mysite.com" }
        "redirect-test").2 = .error e ↔
      (New () { cfgCookieHeaders with BaseURL := "https://www.mysite.com" ++ "/" }
        "redirect-test").2 = .error e) ∧
    ((∃ s, (New () { cfgCookieHeaders with BaseURL := "https://www.mysite.com" }
        "redirect-test").2 = .ok s) ↔
      (∃ s', (New () { cfgCookieHeaders with BaseURL := "https://www.mysite.com" ++ "/" }
        "redirect-test").2 = .ok s')) ∧
    (∀ s s', (New () { cfgCookieHeaders with BaseURL := "https://www.mysite.com" }
        "redirect-test").2 = .ok s →
      (New () { cfgCookieHeaders with BaseURL := "https://www.mysite.com" ++ "/" }
        "redirect-test").2 = .ok s' →
      ∀ req, ServeHTTP s req = ServeHTTP s' req) :=
  New_trailing_slash_idempotent () cfgCookieHeaders "redirect-test" "https://www.mysite.com"
    (by decide)
    (by
      intro b' h
      have hh : HasSuffix "https://www.mysite.com" "/" = true :=
        (HasSuffix_iff _ _).2 ⟨b', h⟩
      exact absurd hh (by decide))

/-- C10: for a configuration that `New` accepts, the handler's base URL is
`b` when `BaseURL = b ++ "/"` and is `BaseURL` when `BaseURL` does not end in
`/`; for `BaseURL = b ++ "//"` it is `b ++ "/"`, and a root-path request that
resolves through a cookie or a header with target `t` is redirected to
`b ++ "//" ++ t ++ "/"`. -/
theorem New_stored_BaseURL {H : Type} (next : H) (config : Config) (name : String)
    (s : SiteRedirect H) (hnew : (New next config name).2 = .ok s) :
    (∀ b, config.BaseURL = b ++ "/" → s.config.BaseURL = b) ∧
    ((∀ b, config.BaseURL ≠ b ++ "/") → s.config.BaseURL = config.BaseURL) ∧
    (∀ b, config.BaseURL = b ++ "//" →
      s.config.BaseURL = b ++ "/" ∧
      (∀ (req : Request) (pre post : List String) (c v : String),
        (req.Path = "" ∨ req.Path = "/") →
        config.RedirectCookies = pre ++ c :: post →
        (∀ c' ∈ pre, ∀ v', req.Cookie c' = some v' →
          config.RedirectionMap.get "" v' = "") →
        req.Cookie c = some v → config.RedirectionMap.get "" v ≠ "" →
        ServeHTTP s req =
          [Call.redirect (b ++ "//" ++ config.RedirectionMap.get "" v ++ "/") 301]) ∧
      (∀ (req : Request) (pre post : List String) (h v : String),
        (req.Path = "" ∨ req.Path = "/") →
        (∀ c ∈ config.RedirectCookies, ∀ v', req.Cookie c = some v' →
          config.RedirectionMap.get "" v' = "") →
        config.RedirectHeaders = pre ++ h :: post →
        (∀ h' ∈ pre, ∀ v', req.Header.get [] h' = [v'] →
          config.RedirectionMap.get "" v' = "") →
        req.Header.get [] h = [v] → config.RedirectionMap.get "" v ≠ "" →
        ServeHTTP s req =
          [Call.redirect (b ++ "//" ++ config.RedirectionMap.get "" v ++ "/") 301])) := by
  obtain ⟨_, _, _, _, rfl⟩ := New_ok_inv hnew
  have hslash : ∀ b : String, b ++ "//" = b ++ "/" ++ "/" := by
    intro b
    rw [String.append_assoc]
    rfl
  refine ⟨?_, ?_, ?_⟩
  · intro b hb
    show TrimSuffix config.BaseURL "/" = b
    rw [hb, TrimSuffix_append]
  · intro hno
    show TrimSuffix config.BaseURL "/" = config.BaseURL
    apply TrimSuffix_of_not_HasSuffix
    cases hh : HasSuffix config.BaseURL "/" with
    | false => rfl
    | true =>
      obtain ⟨b', hb'⟩ := (HasSuffix_iff _ "/").1 hh
      exact absurd hb' (hno b')
  · intro b hb
    have hstored : TrimSuffix config.BaseURL "/" = b ++ "/" := by
      rw [hb, hslash, TrimSuffix_append]
    refine ⟨hstored, ?_, ?_⟩
    · intro req pre post c v hroot hl hpre hv ht
      have h := ServeHTTP_cookie_hit
        ({ config := { config with BaseURL := TrimSuffix config.BaseURL "/" },
           next := next, name := name } : SiteRedirect H)
        req hroot pre post c v hl hpre hv ht
      rw [h]
      show [Call.redirect (TrimSuffix config.BaseURL "/" ++ "/" ++
        config.RedirectionMap.get "" v ++ "/") 301] = _
      rw [hstored, hslash]
    · intro req pre post h v hroot hcook hl hpre hv ht
      have h' := ServeHTTP_header_hit
        ({ config := { config with BaseURL := TrimSuffix config.BaseURL "/" },
           next := next, name := name } : SiteRedirect H)
        req hroot pre post h v hcook hl hpre hv ht
      rw [h']
      show [Call.redirect (TrimSuffix config.BaseURL "/" ++ "/" ++
        config.RedirectionMap.get "" v ++ "/") 301] = _
      rw [hstored, hslash]

/-- Witness of C10: `BaseURL = "https://www.mysite.com//"` is stored as
`"https://www.mysite.com/"`, and cookie `header2=C` redirects to
`https://www.mysite.com//c/`. -/
theorem New_stored_BaseURL_witness :
    (testHandler cfgDoubleSlash).config.BaseURL = "https://www.mysite.com" ++ "/" ∧
    ServeHTTP (testHandler cfgDoubleSlash) reqCookieHeaders =
      [Call.redirect
        ("https://www.mysite.com" ++ "//" ++ cfgDoubleSlash.RedirectionMap.get "" "C" ++ "/")
        301] ∧
    ServeHTTP (testHandler cfgDoubleSlash) reqCookieHeaders =
      [Call.redirect "https://www.mysite.com//c/" 301] :=
  ⟨((New_stored_BaseURL () cfgDoubleSlash "redirect-test" (testHandler cfgDoubleSlash)
      rfl).2.2 "https://www.mysite.com" rfl).1,
   ((New_stored_BaseURL () cfgDoubleSlash "redirect-test" (testHandler cfgDoubleSlash)
      rfl).2.2 "https://www.mysite.com" rfl).2.1 reqCookieHeaders [] [] "header2" "C"
      (Or.inr rfl) rfl (by intro c hc; cases hc) rfl (by decide),
   rfl⟩

/-! ## Claims on the stored base URL and on the caller's configuration -/

/-- Counterexample of C11: `New` accepts `BaseURL = "/"` and the handler it
returns holds the empty base URL. -/
theorem accepted_BaseURL_root_slash :
    (New () cfgRootSlash "redirect-test").2 = .ok (testHandler cfgRootSlash) ∧
    (testHandler cfgRootSlash).config.BaseURL = "" :=
  ⟨rfl, rfl⟩

/-- C11, amended: for a configuration that `New` accepts, the configured
`BaseURL` is non-empty, and the base URL held by the handler is empty exactly
when the configured `BaseURL` is `"/"`. -/
theorem accepted_BaseURL_empty_iff {H : Type} (next : H) (config : Config) (name : String)
    (s : SiteRedirect H) (hnew : (New next config name).2 = .ok s) :
    config.BaseURL ≠ "" ∧ (s.config.BaseURL = "" ↔ config.BaseURL = "/") := by
  obtain ⟨_, _, hb, _, rfl⟩ := New_ok_inv hnew
  refine ⟨hb, ?_⟩
  show TrimSuffix config.BaseURL "/" = "" ↔ config.BaseURL = "/"
  constructor
  · intro h
    cases hh : HasSuffix config.BaseURL "/" with
    | false =>
      rw [TrimSuffix_of_not_HasSuffix _ _ hh] at h
      exact absurd h hb
    | true =>
      obtain ⟨b, hb'⟩ := (HasSuffix_iff _ "/").1 hh
      rw [hb', TrimSuffix_append] at h
      rw [hb', h]
      rfl
  · intro h
    have h' : config.BaseURL = "" ++ "/" := by rw [h]; rfl
    rw [h', TrimSuffix_append]

/-- Witness of C11, amended: the test configuration `cookie headers`, whose
`BaseURL` is not `"/"`, gets a non-empty stored base URL. -/
theorem accepted_BaseURL_empty_iff_witness :
    cfgCookieHeaders.BaseURL ≠ "" ∧
    ((testHandler cfgCookieHeaders).config.BaseURL = "" ↔ cfgCookieHeaders.BaseURL = "/") :=
  accepted_BaseURL_empty_iff () cfgCookieHeaders "redirect-test"
    (testHandler cfgCookieHeaders) rfl

/-- Counterexample of C12: for the configuration of the test `cookie headers`,
which `New` accepts, the caller's `BaseURL` is `https://www.mysite.com/` before
the call and `https://www.mysite.com` after it. -/
theorem New_changes_caller_BaseURL :
    (New () cfgCookieHeaders "redirect-test").2 = .ok (testHandler cfgCookieHeaders) ∧
    cfgCookieHeaders.BaseURL = "https://www.mysite.com/" ∧
    (New () cfgCookieHeaders "redirect-test").1.BaseURL = "https://www.mysite.com" ∧
    (New () cfgCookieHeaders "redirect-test").1.BaseURL ≠ cfgCookieHeaders.BaseURL :=
  ⟨rfl, rfl, rfl, by decide⟩

/-- C12, amended: `New` never changes `DefaultPath`, `RedirectCookies`,
`RedirectHeaders` or `RedirectionMap` of the caller's configuration; it leaves
the whole configuration unchanged when `BaseURL` does not end in `/` and when
it fails on the signal-source, map or base-URL rule; and when it accepts the
configuration, the caller's configuration after the call is the one the
handler holds, with `BaseURL` trimmed of one trailing `/`. -/
theorem New_config_frame {H : Type} (next : H) (config : Config) (name : String) :
    (New next config name).1.DefaultPath = config.DefaultPath ∧
    (New next config name).1.RedirectCookies = config.RedirectCookies ∧
    (New next config name).1.RedirectHeaders = config.RedirectHeaders ∧
    (New next config name).1.RedirectionMap = config.RedirectionMap ∧
    ((∀ b, config.BaseURL ≠ b ++ "/") → (New next config name).1 = config) ∧
    (((config.RedirectCookies = [] ∧ config.RedirectHeaders = []) ∨
        config.RedirectionMap.len = 0 ∨ config.BaseURL = "") →
      (New next config name).1 = config) ∧
    (∀ s, (New next config name).2 = .ok s →
      (New next config name).1 = s.config ∧
      (New next config name).1.BaseURL = TrimSuffix config.BaseURL "/") := by
  rw [New_fst]
  refine ⟨?_, ?_, ?_, ?_, ?_, ?_, ?_⟩
  · split_ifs <;> rfl
  · split_ifs <;> rfl
  · split_ifs <;> rfl
  · split_ifs <;> rfl
  · intro hno
    have htrim : TrimSuffix config.BaseURL "/" = config.BaseURL := by
      apply TrimSuffix_of_not_HasSuffix
      cases hh : HasSuffix config.BaseURL "/" with
      | false => rfl
      | true =>
        obtain ⟨b', hb'⟩ := (HasSuffix_iff _ "/").1 hh
        exact absurd hb' (hno b')
    rw [htrim]
    split_ifs <;> rfl
  · intro hfail
    rw [if_pos hfail]
  · intro s hs
    obtain ⟨h1, h2, h3, _, rfl⟩ := New_ok_inv hs
    have hn : ¬ ((config.RedirectCookies = [] ∧ config.RedirectHeaders = []) ∨
        config.RedirectionMap.len = 0 ∨ config.BaseURL = "") := by
      rintro (h | h | h)
      · exact h1 h
      · exact h2 h
      · exact h3 h
    rw [if_neg hn]
    exact ⟨rfl, rfl⟩

/-- Witness of C12, amended: the test `no headers`, whose `BaseURL` has no
trailing slash, leaves the caller's configuration as it was; the default
configuration, which fails on the first rule, is left as it was. -/
theorem New_config_frame_witness :
    (New () cfgNoHeaders "redirect-test").1 = cfgNoHeaders ∧
    (New () CreateConfig "redirect-test").1 = CreateConfig ∧
    ((New () cfgCookieHeaders "redirect-test").1 = (testHandler cfgCookieHeaders).config ∧
      (New () cfgCookieHeaders "redirect-test").1.BaseURL =
        TrimSuffix cfgCookieHeaders.BaseURL "/") :=
  ⟨(New_config_frame () cfgNoHeaders "redirect-test").2.2.2.2.1
      (by
        intro b h
        have hh : HasSuffix cfgNoHeaders.BaseURL "/" = true := (HasSuffix_iff _ _).2 ⟨b, h⟩
        exact absurd hh (by decide)),
   (New_config_frame () CreateConfig "redirect-test").2.2.2.2.2.1 (Or.inl ⟨rfl, rfl⟩),
   (New_config_frame () cfgCookieHeaders "redirect-test").2.2.2.2.2.2
      (testHandler cfgCookieHeaders) rfl⟩

/-- Counterexample of C15: `New` accepts `BaseURL = "https://www.mysite.com//"`
and the handler it returns holds `https://www.mysite.com/`, which ends in `/`. -/
theorem accepted_BaseURL_keeps_slash :
    (New () cfgDoubleSlash "redirect-test").2 = .ok (testHandler cfgDoubleSlash) ∧
    (testHandler cfgDoubleSlash).config.BaseURL = "https://www.mysite.com" ++ "/" ∧
    HasSuffix (testHandler cfgDoubleSlash).config.BaseURL "/" = true :=
  ⟨rfl, rfl, rfl⟩

/-- C15, amended: for a configuration that `New` accepts, the base URL held by
the handler ends in `/` exactly when the configured `BaseURL` ends in `//`; so
it has no trailing `/` when `BaseURL` has at most one. -/
theorem accepted_BaseURL_slash_iff {H : Type} (next : H) (config : Config) (name : String)
    (s : SiteRedirect H) (hnew : (New next config name).2 = .ok s) :
    (∃ b, s.config.BaseURL = b ++ "/") ↔ (∃ b, config.BaseURL = b ++ "//") := by
  obtain ⟨_, _, _, _, rfl⟩ := New_ok_inv hnew
  have hslash : ∀ b : String, b ++ "//" = b ++ "/" ++ "/" := by
    intro b
    rw [String.append_assoc]
    rfl
  show (∃ b, TrimSuffix config.BaseURL "/" = b ++ "/") ↔ _
  constructor
  · rintro ⟨b, hb⟩
    cases hh : HasSuffix config.BaseURL "/" with
    | false =>
      rw [TrimSuffix_of_not_HasSuffix _ _ hh] at hb
      have : HasSuffix config.BaseURL "/" = true := (HasSuffix_iff _ _).2 ⟨b, hb⟩
      rw [hh] at this
      cases this
    | true =>
      obtain ⟨b0, hb0⟩ := (HasSuffix_iff _ "/").1 hh
      rw [hb0, TrimSuffix_append] at hb
      exact ⟨b, by rw [hb0, hb, hslash]⟩
  · rintro ⟨b, hb⟩
    exact ⟨b, by rw [hb, hslash, TrimSuffix_append]⟩

/-- Witness of C15, amended: the test configuration `cookie headers`, with one
trailing slash, gets a stored base URL without trailing slash, its `BaseURL`
not ending in `//`. -/
theorem accepted_BaseURL_slash_iff_witness :
    ((∃ b, (testHandler cfgCookieHeaders).config.BaseURL = b ++ "/") ↔
      (∃ b, cfgCookieHeaders.BaseURL = b ++ "//")) ∧
    HasSuffix (testHandler cfgCookieHeaders).config.BaseURL "/" = false ∧
    HasSuffix cfgCookieHeaders.BaseURL "//" = false :=
  ⟨accepted_BaseURL_slash_iff () cfgCookieHeaders "redirect-test"
      (testHandler cfgCookieHeaders) rfl,
   by decide, by decide⟩

/-! ## Claims on the signals -/

/-- C13: an empty-string target is no mapping.  Removing from the map every key
whose value is `""` leaves the other keys as they are; when `New` accepts both
the configuration and the one with the reduced map, the two handlers make the
same calls on every request; and a redirect to `baseURL//` can only be the
fallback redirect, never one through a signal value. -/
theorem empty_target_is_no_mapping {H : Type} (next : H) (config : Config) (name : String)
    (s : SiteRedirect H) (hnew : (New next config name).2 = .ok s) :
    (∀ k, config.RedirectionMap.deleteEmpty.entries.lookup k =
      if config.RedirectionMap.entries.lookup k = some "" then none
      else config.RedirectionMap.entries.lookup k) ∧
    (∀ s', (New next { config with RedirectionMap := config.RedirectionMap.deleteEmpty }
        name).2 = .ok s' → ∀ req, ServeHTTP s' req = ServeHTTP s req) ∧
    (∀ req, ServeHTTP s req = [Call.redirect (s.config.BaseURL ++ "//") 301] →
      ServeHTTP s req =
        [Call.redirect (s.config.BaseURL ++ "/" ++ config.DefaultPath) 301]) := by
  obtain ⟨_, _, _, _, rfl⟩ := New_ok_inv hnew
  refine ⟨fun k => GoMap.deleteEmpty_lookup _ k, ?_, ?_⟩
  · intro s' hnew' req
    obtain ⟨_, _, _, _, rfl⟩ := New_ok_inv hnew'
    by_cases hroot : req.Path = "" ∨ req.Path = "/"
    · exact ServeHTTP_root_congr _ _ req req hroot hroot rfl rfl rfl rfl
        (fun k => GoMap.deleteEmpty_get _ k) (fun _ _ => rfl) (fun _ _ => rfl)
    · have hn : ¬ (req.Path = "/" ∨ req.Path = "") := fun h => hroot h.symm
      unfold ServeHTTP
      rw [if_neg hn, if_neg hn]
  · intro req hreq
    by_cases hroot : req.Path = "" ∨ req.Path = "/"
    · rcases ServeHTTP_root_cases
        ({ config := { config with BaseURL := TrimSuffix config.BaseURL "/" },
           next := next, name := name } : SiteRedirect H) req hroot with hf | ⟨v, hv, hm⟩
      · exact hf
      · exfalso
        rw [hm] at hreq
        simp only [List.cons.injEq, Call.redirect.injEq, and_true] at hreq
        exact mapped_ne_double_slash _ _ hv hreq
    · exfalso
      have hn : ¬ (req.Path = "/" ∨ req.Path = "") := fun h => hroot h.symm
      unfold ServeHTTP at hreq
      rw [if_neg hn] at hreq
      simp at hreq

/-- Witness of C13: with the map `{A: a, D: ""}`, the cookie `cookie1=D` does
not resolve and the header `header1: A` decides, as with the map `{A: a}`. -/
theorem empty_target_is_no_mapping_witness :
    cfgEmptyTarget.RedirectionMap.deleteEmpty = ⟨[("A", "a")]⟩ ∧
    ServeHTTP (testHandler { cfgEmptyTarget with
        RedirectionMap := cfgEmptyTarget.RedirectionMap.deleteEmpty }) reqCookieD =
      ServeHTTP (testHandler cfgEmptyTarget) reqCookieD ∧
    ServeHTTP (testHandler cfgEmptyTarget) reqCookieD =
      [Call.redirect "https://www.mysite.com/a/" 301] :=
  ⟨by decide,
   (empty_target_is_no_mapping () cfgEmptyTarget "redirect-test" (testHandler cfgEmptyTarget)
      rfl).2.1 (testHandler { cfgEmptyTarget with
        RedirectionMap := cfgEmptyTarget.RedirectionMap.deleteEmpty }) rfl reqCookieD,
   rfl⟩

/-- C14: determinism on signals.  For a handler built by `New`, two root-path
requests that agree on the cookie lookup of every configured cookie name and on
the value list of every configured header name get the same call: the same
redirect target with status 301. -/
theorem ServeHTTP_depends_on_signals {H : Type} (next : H) (config : Config) (name : String)
    (s : SiteRedirect H) (req₁ req₂ : Request)
    (hnew : (New next config name).2 = .ok s)
    (hroot₁ : req₁.Path = "" ∨ req₁.Path = "/")
    (hroot₂ : req₂.Path = "" ∨ req₂.Path = "/")
    (hc : ∀ c ∈ config.RedirectCookies, req₁.Cookie c = req₂.Cookie c)
    (hh : ∀ h ∈ config.RedirectHeaders, req₁.Header.get [] h = req₂.Header.get [] h) :
    ∃ url, ServeHTTP s req₁ = [Call.redirect url 301] ∧
      ServeHTTP s req₂ = [Call.redirect url 301] := by
  obtain ⟨_, _, _, _, rfl⟩ := New_ok_inv hnew
  obtain ⟨url, hurl⟩ := ServeHTTP_root_shape
    ({ config := { config with BaseURL := TrimSuffix config.BaseURL "/" },
       next := next, name := name } : SiteRedirect H) req₂ hroot₂
  refine ⟨url, ?_, hurl⟩
  rw [← hurl]
  exact ServeHTTP_root_congr _ _ req₂ req₁ hroot₂ hroot₁ rfl rfl rfl rfl (fun _ => rfl) hc hh

/-- Witness of C14: the signals of the test `cookie headers` on the path `/`,
and on the path `""` with one more header and one more cookie. -/
theorem ServeHTTP_depends_on_signals_witness :
    ∃ url, ServeHTTP (testHandler cfgCookieHeaders) reqCookieHeaders =
        [Call.redirect url 301] ∧
      ServeHTTP (testHandler cfgCookieHeaders)
          { Path := ""
            Header := ⟨[("Accept", ["text/html"]), ("header1", ["b"]),
              ("Cookie", ["header2=C; other=A"])]⟩
            Cookie := fun n =>
              if n = "header2" then some "C" else if n = "other" then some "A" else none } =
        [Call.redirect url 301] :=
  ServeHTTP_depends_on_signals () cfgCookieHeaders "redirect-test"
    (testHandler cfgCookieHeaders) reqCookieHeaders _ rfl (Or.inr rfl) (Or.inl rfl)
    (by
      intro c hc
      rw [List.mem_singleton.1 hc]
      rfl)
    (by
      intro h hh
      rw [List.mem_singleton.1 hh]
      rfl)

/-- C16: for a handler built by `New` and a root-path request on which no
cookie resolves, a configured header whose value list on the request does not
have exactly one element is skipped whatever its values: if that holds of
every configured header the call is the fallback redirect, and a later header
with exactly one value, mapped to a non-empty target, decides. -/
theorem multi_valued_header_skipped {H : Type} (next : H) (config : Config) (name : String)
    (s : SiteRedirect H) (req : Request)
    (hnew : (New next config name).2 = .ok s)
    (hroot : req.Path = "" ∨ req.Path = "/")
    (hcook : ∀ c ∈ config.RedirectCookies, ∀ v, req.Cookie c = some v →
      config.RedirectionMap.get "" v = "") :
    ((∀ h ∈ config.RedirectHeaders, (req.Header.get [] h).length ≠ 1) →
      ServeHTTP s req =
        [Call.redirect (s.config.BaseURL ++ "/" ++ config.DefaultPath) 301]) ∧
    (∀ (pre post : List String) (h v : String),
      config.RedirectHeaders = pre ++ h :: post →
      (∀ h' ∈ pre, (req.Header.get [] h').length ≠ 1) →
      req.Header.get [] h = [v] → config.RedirectionMap.get "" v ≠ "" →
      ServeHTTP s req =
        [Call.redirect
          (s.config.BaseURL ++ "/" ++ config.RedirectionMap.get "" v ++ "/") 301]) := by
  obtain ⟨_, _, _, _, rfl⟩ := New_ok_inv hnew
  have hskip : ∀ l : List String, (∀ h' ∈ l, (req.Header.get [] h').length ≠ 1) →
      ∀ h' ∈ l, ∀ v', req.Header.get [] h' = [v'] → config.RedirectionMap.get "" v' = "" := by
    intro l hl h' hh' v' hv'
    exfalso
    apply hl h' hh'
    rw [hv']
    rfl
  constructor
  · intro hall
    exact ServeHTTP_fallback _ req hroot hcook (hskip _ hall)
  · intro pre post h v hl hpre hv ht
    exact ServeHTTP_header_hit _ req hroot pre post h v hcook hl (hskip _ hpre) hv ht

/-- Witness of C16: the header `header1` carries `A` and `B`, both keys of the
map.  With `header1` the only configured header the call is the fallback
redirect; with `[header1, header2]` the header `header2: C` decides. -/
theorem multi_valued_header_skipped_witness :
    reqTwoValues.Header.get [] "header1" = ["A", "B"] ∧
    redirectMaps.get "" "A" = "a" ∧ redirectMaps.get "" "B" = "b" ∧
    ServeHTTP (testHandler cfgNoHeaders) reqTwoValues =
      [Call.redirect
        ((testHandler cfgNoHeaders).config.BaseURL ++ "/" ++ cfgNoHeaders.DefaultPath) 301] ∧
    ServeHTTP (testHandler cfgMultipleHeaders) reqTwoValues =
      [Call.redirect
        ((testHandler cfgMultipleHeaders).config.BaseURL ++ "/" ++
          cfgMultipleHeaders.RedirectionMap.get "" "C" ++ "/") 301] ∧
    ServeHTTP (testHandler cfgNoHeaders) reqTwoValues =
      [Call.redirect "https://www.mysite.com/default/" 301] ∧
    ServeHTTP (testHandler cfgMultipleHeaders) reqTwoValues =
      [Call.redirect "https://www.mysite.com/c/" 301] :=
  ⟨rfl, rfl, rfl,
   (multi_valued_header_skipped () cfgNoHeaders "redirect-test" (testHandler cfgNoHeaders)
      reqTwoValues rfl (Or.inr rfl) (by intro c hc; cases hc)).1
      (by
        intro h hh
        rw [List.mem_singleton.1 hh]
        decide),
   (multi_valued_header_skipped () cfgMultipleHeaders "redirect-test"
      (testHandler cfgMultipleHeaders) reqTwoValues rfl (Or.inr rfl)
      (by intro c hc; cases hc)).2 ["header1"] [] "header2" "C" rfl
      (by
        intro h hh
        rw [List.mem_singleton.1 hh]
        decide)
      rfl (by decide),
   rfl, rfl⟩

/-- Counterexample of C17: the header `Cookie` is a configured redirect header
and its value `cookie1=D` is a key of the map.  The cookie `cookie1=D` does not
resolve, `D` not being a key; the request is redirected to `.../x/` through the
header, and to `.../default/` once its cookies are removed. -/
theorem cookie_removal_changes_outcome :
    (New () cfgCookieAsHeader "redirect-test").2 = .ok (testHandler cfgCookieAsHeader) ∧
    reqCookieAsHeader.Path = "/" ∧
    cfgCookieAsHeader.RedirectCookies = ["cookie1"] ∧
    reqCookieAsHeader.Cookie "cookie1" = some "D" ∧
    cfgCookieAsHeader.RedirectionMap.get "" "D" = "" ∧
    ServeHTTP (testHandler cfgCookieAsHeader) reqCookieAsHeader =
      [Call.redirect "https://www.mysite.com/x/" 301] ∧
    ServeHTTP (testHandler cfgCookieAsHeader) reqCookieAsHeader.withoutCookies =
      [Call.redirect "https://www.mysite.com/default/" 301] ∧
    ServeHTTP (testHandler cfgCookieAsHeader) reqCookieAsHeader.withoutCookies ≠
      ServeHTTP (testHandler cfgCookieAsHeader) reqCookieAsHeader :=
  ⟨rfl, rfl, rfl, rfl, rfl, rfl, rfl, by
    intro h
    have h' : [Call.redirect "https://www.mysite.com/default/" 301] =
        ([Call.redirect "https://www.mysite.com/x/" 301] : List (Call Unit)) := h
    simp only [List.cons.injEq, Call.redirect.injEq, and_true] at h'
    exact absurd h' (by decide)⟩

/-- C17, amended: a cookie that does not resolve does not block later signals.
For a handler built by `New` and a root-path request on which no configured
cookie resolves, the header loop decides, with the fallback when it runs to
its end; and when `Cookie` is not one of the configured header names, the
calls are those made for the same request with all its cookies removed. -/
theorem unresolved_cookies_fall_through {H : Type} (next : H) (config : Config)
    (name : String) (s : SiteRedirect H) (req : Request)
    (hnew : (New next config name).2 = .ok s)
    (hroot : req.Path = "" ∨ req.Path = "/")
    (hcook : ∀ c ∈ config.RedirectCookies, ∀ v, req.Cookie c = some v →
      config.RedirectionMap.get "" v = "") :
    ServeHTTP s req =
      (match headerLoop s req config.RedirectHeaders with
      | some calls => calls
      | none => [Call.redirect (s.config.BaseURL ++ "/" ++ config.DefaultPath) 301]) ∧
    ("Cookie" ∉ config.RedirectHeaders →
      ServeHTTP s req.withoutCookies = ServeHTTP s req) := by
  obtain ⟨_, hD, hC, hH, hM, _⟩ := New_ok_fields hnew
  rw [← hC, ← hM] at hcook
  rw [← hD, ← hH]
  have hmain := ServeHTTP_no_cookie s req hroot hcook
  refine ⟨hmain, ?_⟩
  intro hnot
  have h' := ServeHTTP_no_cookie s req.withoutCookies hroot
    (by
      intro c _ v hv
      cases hv)
  rw [h', hmain]
  rw [headerLoop_congr s s req req.withoutCookies rfl (fun _ => rfl) _
    (by
      intro h hh
      apply GoMap.delete_get_of_ne
      rintro rfl
      exact hnot hh)]

/-- Witness of C17, amended: with the map `{A: a, D: ""}` and the configured
header `header1`, the request with the cookie `cookie1=D` and the header
`header1: A` is redirected to `.../a/`, as the same request with its cookies
removed. -/
theorem unresolved_cookies_fall_through_witness :
    ServeHTTP (testHandler cfgEmptyTarget) reqCookieD.withoutCookies =
      ServeHTTP (testHandler cfgEmptyTarget) reqCookieD ∧
    reqCookieD.withoutCookies.Header = ⟨[("header1", ["A"])]⟩ ∧
    ServeHTTP (testHandler cfgEmptyTarget) reqCookieD.withoutCookies =
      [Call.redirect "https://www.mysite.com/a/" 301] :=
  ⟨(unresolved_cookies_fall_through () cfgEmptyTarget "redirect-test"
      (testHandler cfgEmptyTarget) reqCookieD rfl (Or.inr rfl)
      (by
        intro c hc v hv
        rw [List.mem_singleton.1 hc] at hv
        have hD : v = "D" := (Option.some.inj hv).symm
        rw [hD]
        rfl)).2 (by decide),
   by decide, rfl⟩

/-- C18: redirect targets are built from the configuration.  For a handler
built by `New` and a root-path request, the call is the redirect to
`baseURL/DefaultPath`, or the redirect to `baseURL/v/` where `v` is a
non-empty value of an entry `(k, v)` of the map whose key `k` is the value of
a configured cookie or the single value of a configured header; in both cases
the target starts with `baseURL/`. -/
theorem redirect_target_from_config {H : Type} (next : H) (config : Config) (name : String)
    (s : SiteRedirect H) (req : Request)
    (hnew : (New next config name).2 = .ok s)
    (hroot : req.Path = "" ∨ req.Path = "/") :
    (ServeHTTP s req =
        [Call.redirect (s.config.BaseURL ++ "/" ++ config.DefaultPath) 301] ∨
      ∃ k v, (k, v) ∈ config.RedirectionMap.entries ∧ v ≠ "" ∧
        ((∃ c ∈ config.RedirectCookies, req.Cookie c = some k) ∨
          (∃ h ∈ config.RedirectHeaders, req.Header.get [] h = [k])) ∧
        ServeHTTP s req = [Call.redirect (s.config.BaseURL ++ "/" ++ v ++ "/") 301]) ∧
    ∃ rest, ServeHTTP s req = [Call.redirect (s.config.BaseURL ++ "/" ++ rest) 301] := by
  obtain ⟨_, hD, hC, hH, hM, _⟩ := New_ok_fields hnew
  rw [← hD, ← hC, ← hH, ← hM]
  have hcases : ServeHTTP s req =
        [Call.redirect (s.config.BaseURL ++ "/" ++ s.config.DefaultPath) 301] ∨
      ∃ k v, (k, v) ∈ s.config.RedirectionMap.entries ∧ v ≠ "" ∧
        ((∃ c ∈ s.config.RedirectCookies, req.Cookie c = some k) ∨
          (∃ h ∈ s.config.RedirectHeaders, req.Header.get [] h = [k])) ∧
        ServeHTTP s req = [Call.redirect (s.config.BaseURL ++ "/" ++ v ++ "/") 301] := by
    rw [ServeHTTP_root s req hroot]
    cases hc : cookieLoop s req s.config.RedirectCookies with
    | some calls =>
      obtain ⟨c, hcm, k, h1, h2, h3⟩ := cookieLoop_some s req _ calls hc
      exact Or.inr ⟨k, _, GoMap.mem_of_get_ne _ "" k h2, h2, Or.inl ⟨c, hcm, h1⟩, h3⟩
    | none =>
      cases hh : headerLoop s req s.config.RedirectHeaders with
      | some calls =>
        obtain ⟨x, hxm, k, h1, h2, h3⟩ := headerLoop_some s req _ calls hh
        exact Or.inr ⟨k, _, GoMap.mem_of_get_ne _ "" k h2, h2, Or.inr ⟨x, hxm, h1⟩, h3⟩
      | none => exact Or.inl rfl
  refine ⟨hcases, ?_⟩
  rcases hcases with hf | ⟨k, v, _, _, _, hm⟩
  · exact ⟨_, hf⟩
  · exact ⟨v ++ "/", by rw [hm, String.append_assoc (s.config.BaseURL ++ "/") v "/"]⟩

/-- Witness of C18: in the test `cookie headers` the target is
`https://www.mysite.com/c/`, from the entry `(C, c)` of the map. -/
theorem redirect_target_from_config_witness :
    ((ServeHTTP (testHandler cfgCookieHeaders) reqCookieHeaders =
        [Call.redirect
          ((testHandler cfgCookieHeaders).config.BaseURL ++ "/" ++
            cfgCookieHeaders.DefaultPath) 301] ∨
      ∃ k v, (k, v) ∈ cfgCookieHeaders.RedirectionMap.entries ∧ v ≠ "" ∧
        ((∃ c ∈ cfgCookieHeaders.RedirectCookies, reqCookieHeaders.Cookie c = some k) ∨
          (∃ h ∈ cfgCookieHeaders.RedirectHeaders,
            reqCookieHeaders.Header.get [] h = [k])) ∧
        ServeHTTP (testHandler cfgCookieHeaders) reqCookieHeaders =
          [Call.redirect
            ((testHandler cfgCookieHeaders).config.BaseURL ++ "/" ++ v ++ "/") 301]) ∧
    ∃ rest, ServeHTTP (testHandler cfgCookieHeaders) reqCookieHeaders =
      [Call.redirect ((testHandler cfgCookieHeaders).config.BaseURL ++ "/" ++ rest) 301]) ∧
    ServeHTTP (testHandler cfgCookieHeaders) reqCookieHeaders =
      [Call.redirect "https://www.mysite.com/c/" 301] :=
  ⟨redirect_target_from_config () cfgCookieHeaders "redirect-test"
      (testHandler cfgCookieHeaders) reqCookieHeaders rfl (Or.inr rfl),
   rfl⟩

/-- C19: header names and signal values are matched by exact string equality.
For a handler built by `New` and a root-path request on which no cookie
resolves, if every configured header name either is not a key of the request's
header map, or carries a single value that is not a key of the redirection
map, the call is the fallback redirect, whatever other keys the two maps
hold. -/
theorem header_match_exact {H : Type} (next : H) (config : Config) (name : String)
    (s : SiteRedirect H) (req : Request)
    (hnew : (New next config name).2 = .ok s)
    (hroot : req.Path = "" ∨ req.Path = "/")
    (hcook : ∀ c ∈ config.RedirectCookies, ∀ v, req.Cookie c = some v →
      config.RedirectionMap.get "" v = "")
    (hhdr : ∀ h ∈ config.RedirectHeaders,
      h ∉ req.Header.entries.map Prod.fst ∨
      ∀ v, req.Header.get [] h = [v] → v ∉ config.RedirectionMap.entries.map Prod.fst) :
    ServeHTTP s req =
      [Call.redirect (s.config.BaseURL ++ "/" ++ config.DefaultPath) 301] := by
  obtain ⟨_, hD, hC, hH, hM, _⟩ := New_ok_fields hnew
  rw [← hC, ← hM] at hcook
  rw [← hH, ← hM] at hhdr
  rw [← hD]
  apply ServeHTTP_fallback s req hroot hcook
  intro h hh v hv
  rcases hhdr h hh with hkey | hval
  · exfalso
    rw [GoMap.get_of_not_key _ [] h hkey] at hv
    cases hv
  · exact GoMap.get_of_not_key _ "" v (hval v hv)

/-- Witness of C19: with the header name `header1` configured, the request
whose header map has the key `Header1` with the mapped value `A` gets the
fallback redirect, while the key `header1` with the same value resolves; the
header value `a` gets the fallback redirect, `a` not being a key of the map;
and a map with the key `B` alone does not map `b`. -/
theorem header_match_exact_witness :
    ServeHTTP (testHandler cfgNoHeaders) reqCanonicalKey =
      [Call.redirect
        ((testHandler cfgNoHeaders).config.BaseURL ++ "/" ++ cfgNoHeaders.DefaultPath) 301] ∧
    ServeHTTP (testHandler cfgNoHeaders) reqLowerValue =
      [Call.redirect
        ((testHandler cfgNoHeaders).config.BaseURL ++ "/" ++ cfgNoHeaders.DefaultPath) 301] ∧
    ServeHTTP (testHandler cfgNoHeaders) reqCanonicalKey =
      [Call.redirect "https://www.mysite.com/default/" 301] ∧
    ServeHTTP (testHandler cfgNoHeaders)
        { reqCanonicalKey with Header := ⟨[("header1", ["A"])]⟩ } =
      [Call.redirect "https://www.mysite.com/a/" 301] ∧
    (⟨[("B", "b")]⟩ : GoMap String).get "" "B" = "b" ∧
    (⟨[("B", "b")]⟩ : GoMap String).get "" "b" = "" :=
  ⟨header_match_exact () cfgNoHeaders "redirect-test" (testHandler cfgNoHeaders)
      reqCanonicalKey rfl (Or.inr rfl) (by intro c hc; cases hc)
      (by
        intro h hh
        rw [List.mem_singleton.1 hh]
        exact Or.inl (by decide)),
   header_match_exact () cfgNoHeaders "redirect-test" (testHandler cfgNoHeaders)
      reqLowerValue rfl (Or.inr rfl) (by intro c hc; cases hc)
      (by
        intro h hh
        rw [List.mem_singleton.1 hh]
        refine Or.inr ?_
        intro v hv
        have ha : v = "a" := (List.cons.inj hv).1.symm
        rw [ha]
        decide),
   rfl, rfl, rfl, rfl⟩

end Redirector
